import Mathlib

/-!
Verification of the control-flow contract of the tutorial notebook
`notebooks/deploy-llama3.ipynb` (deploying Llama 3 70B on Amazon SageMaker).

The notebook's own logic is a linear orchestration script: resolve an
execution role (with a ValueError fallback to an IAM lookup), build a
container image URI by string interpolation, assemble an environment
configuration dict guarded by a placeholder-token assertion, build the
chat request payload, extract the response content, and pretty-print the
benchmark summary file found by a glob pattern.  Each cell is embedded
below as a pure Lean function: Python dicts become association lists,
exceptions become `Except`, Python floats become exact rationals, and the
external SDK calls (`sagemaker.get_execution_role`, `iam.get_role`) become
explicit `Except`-valued parameters.
-/

namespace DeployLlama3

/-! ## Python-semantics helpers -/

/-- Whitespace characters stripped by Python's `str.strip()` (ASCII range). -/
def pyIsSpace (c : Char) : Bool :=
  c == ' ' || c == '\t' || c == '\n' || c == '\r' || c == '\x0b' || c == '\x0c'

/-- Python `str.strip()`: remove leading and trailing whitespace. -/
def pyStrip (s : String) : String :=
  String.mk (((s.data.dropWhile pyIsSpace).reverse.dropWhile pyIsSpace).reverse)

/-- Python dict lookup `d[k]` on an association list, `none` meaning `KeyError`. -/
def pyLookup (d : List (String × String)) (k : String) : Option String :=
  (d.find? (fun p => p.1 == k)).map Prod.snd

/-- JSON-like values exchanged with the endpoint (floats modelled as exact rationals). -/
inductive JValue where
  | str : String → JValue
  | num : ℚ → JValue
  | arr : List JValue → JValue
  | obj : List (String × JValue) → JValue

/-- Python subscript `v[k]` on a JSON object; `none` models the uncaught error
on a non-object or a missing key. -/
def jGet : JValue → String → Option JValue
  | .obj fields, k => (fields.find? (fun p => p.1 == k)).map Prod.snd
  | _, _ => none

/-- Python subscript `v[i]` on a JSON array; `none` models the uncaught
`IndexError` / type error. -/
def jIndex : JValue → Nat → Option JValue
  | .arr xs, i => xs.get? i
  | _, _ => none

/-- Read a JSON string value. -/
def jStr : JValue → Option String
  | .str s => some s
  | _ => none

/-! ## Cell: session and execution-role resolution -/

/-- A Python exception, distinguishing `ValueError` (the only type the
notebook catches) from every other exception type. -/
inductive PyExc where
  | valueError : String → PyExc
  | other : String → PyExc
deriving DecidableEq

/-- The record returned by `iam.get_role(...)`; the notebook reads
`['Role']['Arn']` from it. -/
structure IamRole where
  arn : String
deriving DecidableEq

/-- Embedding of the credential-resolution cell:
`try: role = sagemaker.get_execution_role()`
`except ValueError: role = iam.get_role(RoleName='sagemaker_execution_role')['Role']['Arn']`.
The two SDK calls are passed in as `Except`-valued oracles.  Note the
`except` clause catches only `ValueError`: any other primary failure
propagates without consulting the fallback. -/
def resolveRole (getExecutionRole : Except PyExc String)
    (iamGetRole : String → Except PyExc IamRole) : Except PyExc String :=
  match getExecutionRole with
  | .ok r => .ok r
  | .error (.valueError _) =>
      match iamGetRole "sagemaker_execution_role" with
      | .ok rr => .ok rr.arn
      | .error e => .error e
  | .error e => .error e

/-! ## Cell: container image URI -/

/-- Embedding of `llm_image = f"763104351884.dkr.ecr.{sess.boto_region_name}.amazonaws.com/..."`. -/
def llmImage (region : String) : String :=
  "763104351884.dkr.ecr." ++ region ++
    ".amazonaws.com/huggingface-pytorch-tgi-inference:2.1-tgi2.0-gpu-py310-cu121-ubuntu22.04"

/-! ## Cell: configuration dict, token assertion, model construction -/

/-- The documented placeholder value of the Hugging Face Hub token. -/
def placeholderToken : String := "<REPLACE WITH YOUR TOKEN>"

/-- The notebook's `config` dict, with the token slot parametrized (the
source commits it with the literal placeholder, see `sourceConfig`). -/
def configWith (token : String) : List (String × String) :=
  [("HF_MODEL_ID", "meta-llama/Meta-Llama-3-70B-Instruct"),
   ("SM_NUM_GPUS", "8"),
   ("MAX_INPUT_LENGTH", "2048"),
   ("MAX_TOTAL_TOKENS", "4096"),
   ("MAX_BATCH_TOTAL_TOKENS", "8192"),
   ("MESSAGES_API_ENABLED", "true"),
   ("HUGGING_FACE_HUB_TOKEN", token)]

/-- The `config` dict exactly as committed in the source: the token entry
is the literal placeholder string. -/
def sourceConfig : List (String × String) := configWith placeholderToken

/-- The `HuggingFaceModel(role=..., image_uri=..., env=...)` object. -/
structure HuggingFaceModel where
  role : String
  image_uri : String
  env : List (String × String)
deriving DecidableEq

/-- Embedding of the model-construction cell: look up the token (a missing
key is a Python `KeyError`), run
`assert config['HUGGING_FACE_HUB_TOKEN'] != "<REPLACE WITH YOUR TOKEN>"`,
then construct the `HuggingFaceModel`.  An `Except.error` result means the
cell raised before the model object (and hence any later `deploy` call)
exists. -/
def modelCell (role llm_image : String) (config : List (String × String)) :
    Except String HuggingFaceModel :=
  match pyLookup config "HUGGING_FACE_HUB_TOKEN" with
  | none => .error "KeyError: HUGGING_FACE_HUB_TOKEN"
  | some t =>
      if t = placeholderToken then .error "Please set your Hugging Face Hub token"
      else .ok { role := role, image_uri := llm_image, env := config }

/-! ## Cell: chat messages, generation parameters, request payload -/

/-- One entry of the `messages` list. -/
structure ChatMessage where
  role : String
  content : String
deriving DecidableEq

/-- The notebook's `messages` list. -/
def messages : List ChatMessage :=
  [{ role := "system", content := "You are a helpful assistant." },
   { role := "user", content := "What is deep learning?" }]

/-- The notebook's `parameters` dict of generation arguments. -/
def parameters : List (String × JValue) :=
  [("model", .str "meta-llama/Meta-Llama-3-70B-Instruct"),
   ("top_p", .num (6 / 10)),
   ("temperature", .num (9 / 10)),
   ("max_tokens", .num 512),
   ("stop", .arr [.str "<|eot_id|>"])]

/-- A chat message as it appears in the JSON payload. -/
def msgToJ (m : ChatMessage) : JValue :=
  .obj [("role", .str m.role), ("content", .str m.content)]

/-- Python dict insertion (last binding wins, order of first insertion kept),
used to give `{"messages": ms, **ps}` its exact Python semantics. -/
def dictInsert (d : List (String × JValue)) (k : String) (v : JValue) :
    List (String × JValue) :=
  if d.any (fun p => p.1 == k) then d.map (fun p => if p.1 == k then (k, v) else p)
  else d ++ [(k, v)]

/-- Embedding of the argument of `llm.predict({"messages": messages, **parameters})`:
a single flat JSON object starting from the `messages` entry and merging in
each generation parameter. -/
def predictPayload (ms : List ChatMessage) (ps : List (String × JValue)) : JValue :=
  .obj (ps.foldl (fun d p => dictInsert d p.1 p.2) [("messages", .arr (ms.map msgToJ))])

/-- Embedding of `chat["choices"][0]["message"]["content"].strip()`: read the
first choice's message content and strip surrounding whitespace; any other
response shape makes some subscript fail (`none`), with no defensive handling. -/
def extractContent (chat : JValue) : Option String := do
  let choices ← jGet chat "choices"
  let first ← jIndex choices 0
  let msg ← jGet first "message"
  let content ← jGet msg "content"
  let s ← jStr content
  pure (pyStrip s)

/-! ## Cell: benchmark invocation and summary printing -/

/-- Embedding of the shell command built by the benchmark cell (the source
passes the literal concurrency 25). -/
def benchmarkCommand (endpointName : String) (numConcurrent : Nat) : String :=
  "MESSAGES_API=true python llmperf/token_benchmark_ray.py --model " ++ endpointName ++
    " --llm-api \"sagemaker\" --max-num-completed-requests 500 --timeout 600" ++
    " --num-concurrent-requests " ++ toString numConcurrent ++ " --results-dir \"results\""

/-- The fields the summary-printing cell reads from the parsed
`*summary.json` file (their existence is assumed, never validated). -/
structure SummaryRecord where
  mean_input_tokens : Int
  mean_output_tokens : Int
  results_ttft_s_mean : ℚ
  results_mean_output_throughput_token_per_s : ℚ
  results_inter_token_latency_s_mean : ℚ
deriving DecidableEq

/-- Round half to even, as Python's fixed-point float formatting does on an
exactly representable tie. -/
def roundHalfEven (q : ℚ) : Int :=
  let f : Int := ⌊q⌋
  if q - f < 1 / 2 then f
  else if q - f > 1 / 2 then f + 1
  else if f % 2 = 0 then f else f + 1

/-- Python `f"{v:.2f}"` on an exact rational value. -/
def fmtFixed2 (q : ℚ) : String :=
  let n := roundHalfEven (q * 100)
  let sign := if n < 0 then "-" else ""
  let a := n.natAbs
  let fp := a % 100
  sign ++ toString (a / 100) ++ "." ++ (if fp < 10 then "0" ++ toString fp else toString fp)

/-- The six lines printed by the summary cell, in order.  The first line is
the literal `print("Concurrent requests: 25")`; the latency statistics are
scaled from seconds to milliseconds and formatted with two decimals. -/
def summaryLines (data : SummaryRecord) : List String :=
  ["Concurrent requests: 25",
   "Avg. Input token length: " ++ toString data.mean_input_tokens,
   "Avg. Output token length: " ++ toString data.mean_output_tokens,
   "Avg. First-Time-To-Token: " ++ fmtFixed2 (data.results_ttft_s_mean * 1000) ++ "ms",
   "Avg. Thorughput: " ++ fmtFixed2 data.results_mean_output_throughput_token_per_s ++
     " tokens/sec",
   "Avg. Latency: " ++ fmtFixed2 (data.results_inter_token_latency_s_mean * 1000) ++ "ms/token"]

/-- Split a character list at every slash, mirroring path segmentation. -/
def splitSlash : List Char → List (List Char)
  | [] => [[]]
  | c :: rest =>
      let r := splitSlash rest
      if c = '/' then [] :: r
      else
        match r with
        | [] => [[c]]
        | s :: ss => (c :: s) :: ss

/-- Whether a path matches the glob pattern `results/*summary.json`: the
directory is exactly `results`, the basename ends in `summary.json`, the
wildcard does not cross a slash, and (per glob's hidden-file rule) the
basename does not start with a dot. -/
def matchesSummaryPattern (path : String) : Bool :=
  match splitSlash path.data with
  | [d, base] =>
      d == "results".data &&
      List.isSuffixOf "summary.json".data base &&
      (match base with
       | [] => true
       | c :: _ => c != '.')
  | _ => false

/-- Embedding of the summary cell: the filesystem is an association list
from path to parsed file record.  `glob.glob('results/*summary.json')[0]`
takes the first matching path, a Python `IndexError` being raised when the
match list is empty; the matched file is then read and the six lines are
printed. -/
def summaryCell (fs : List (String × SummaryRecord)) : Except String (List String) :=
  match (fs.filter (fun p => matchesSummaryPattern p.1)).head? with
  | none => .error "IndexError: list index out of range"
  | some pd => .ok (summaryLines pd.2)

/-- A record reproducing the committed notebook's benchmark output values. -/
def benchData : SummaryRecord :=
  { mean_input_tokens := 550,
    mean_output_tokens := 150,
    results_ttft_s_mean := 130128 / 100000,
    results_mean_output_throughput_token_per_s := 111625 / 100,
    results_inter_token_latency_s_mean := 1045 / 100000 }

end DeployLlama3

namespace DeployLlama3

/-! ## Helper evaluation lemmas -/

/-- Two-decimal formatting of the committed time-to-first-token value,
scaled from seconds to milliseconds. -/
theorem fmtFixed2_ttft_eval : fmtFixed2 ((130128 / 100000 : ℚ) * 1000) = "1301.28" := by
  have h : roundHalfEven ((130128 / 100000 : ℚ) * 1000 * 100) = 130128 := by
    norm_num [roundHalfEven]
  simp only [fmtFixed2, h]
  rfl

/-- Two-decimal formatting of the committed inter-token latency value,
scaled from seconds to milliseconds. -/
theorem fmtFixed2_latency_eval : fmtFixed2 ((1045 / 100000 : ℚ) * 1000) = "10.45" := by
  have h : roundHalfEven ((1045 / 100000 : ℚ) * 1000 * 100) = 1045 := by
    norm_num [roundHalfEven]
  simp only [fmtFixed2, h]
  rfl

/-! ## Claim theorems -/

/-- C3: for region "us-east-1", the image resolver produces exactly the
documented fully qualified container image URI. -/
theorem llmImage_us_east_1 :
    llmImage "us-east-1" =
      "763104351884.dkr.ecr.us-east-1.amazonaws.com/huggingface-pytorch-tgi-inference:2.1-tgi2.0-gpu-py310-cu121-ubuntu22.04" :=
  rfl

/-- C1: any configuration whose HUGGING_FACE_HUB_TOKEN entry equals the
documented placeholder makes the setup cell raise the assertion error, so
no model object exists and no deployment call can be attempted; and this
assertion is the only validation: every configuration with any other token
value passes and the model is constructed. -/
theorem modelCell_placeholder_raises
    (config : List (String × String)) (role llm_image : String)
    (h : pyLookup config "HUGGING_FACE_HUB_TOKEN" = some placeholderToken) :
    modelCell role llm_image config = .error "Please set your Hugging Face Hub token" ∧
    ∀ t, t ≠ placeholderToken →
      modelCell role llm_image (configWith t) =
        .ok { role := role, image_uri := llm_image, env := configWith t } := by
  constructor
  · simp [modelCell, h]
  · intro t ht
    have hl : pyLookup (configWith t) "HUGGING_FACE_HUB_TOKEN" = some t := rfl
    simp [modelCell, hl, ht]

/-- C1 witness: the committed configuration holds the placeholder, and the
setup cell raises on it. -/
theorem modelCell_placeholder_raises_witness :
    modelCell "r" "img" sourceConfig = .error "Please set your Hugging Face Hub token" :=
  (modelCell_placeholder_raises sourceConfig "r" "img" rfl).1

/-- C9: the source as committed stores the literal placeholder as the token,
so for every role and image the setup cell raises the assertion error and
never reaches model construction or deployment. -/
theorem sourceConfig_always_raises :
    (pyLookup sourceConfig "HUGGING_FACE_HUB_TOKEN" = some placeholderToken) ∧
    ∀ role llm_image : String,
      modelCell role llm_image sourceConfig =
        .error "Please set your Hugging Face Hub token" :=
  ⟨rfl, fun _ _ => rfl⟩

/-- C5: for every non-placeholder token, the configuration mapping contains
exactly the seven documented keys in order, all values being strings by
construction, and the mapping is passed unchanged (not mutated) into the
constructed model's environment. -/
theorem configWith_exact_keys (t : String) (h : t ≠ placeholderToken) :
    (configWith t).map Prod.fst =
      ["HF_MODEL_ID", "SM_NUM_GPUS", "MAX_INPUT_LENGTH", "MAX_TOTAL_TOKENS",
       "MAX_BATCH_TOTAL_TOKENS", "MESSAGES_API_ENABLED", "HUGGING_FACE_HUB_TOKEN"] ∧
    ∀ role llm_image, modelCell role llm_image (configWith t) =
      .ok { role := role, image_uri := llm_image, env := configWith t } := by
  refine ⟨rfl, ?_⟩
  intro role llm_image
  have hl : pyLookup (configWith t) "HUGGING_FACE_HUB_TOKEN" = some t := rfl
  simp [modelCell, hl, h]

/-- C5 witness: a concrete non-placeholder token produces the seven-key
mapping and a successfully constructed model holding it unchanged. -/
theorem configWith_exact_keys_witness :
    (configWith "hf_token").map Prod.fst =
      ["HF_MODEL_ID", "SM_NUM_GPUS", "MAX_INPUT_LENGTH", "MAX_TOTAL_TOKENS",
       "MAX_BATCH_TOTAL_TOKENS", "MESSAGES_API_ENABLED", "HUGGING_FACE_HUB_TOKEN"] ∧
    modelCell "r" "img" (configWith "hf_token") =
      .ok { role := "r", image_uri := "img", env := configWith "hf_token" } :=
  ⟨(configWith_exact_keys "hf_token" (by decide)).1,
   (configWith_exact_keys "hf_token" (by decide)).2 "r" "img"⟩

/-- C2: on a response of shape with choices, the extraction step
reads exactly the first choice's message content and returns it with
surrounding whitespace stripped (in particular content " X \n" yields "X");
on an error envelope with no choices key, extraction fails with no
defensive handling. -/
theorem extractContent_first_choice (c e : String) (extra : List JValue) :
    extractContent
        (.obj [("choices",
          .arr (.obj [("message", .obj [("content", .str c)])] :: extra))]) =
      some (pyStrip c) ∧
    pyStrip " X \n" = "X" ∧
    extractContent (.obj [("error", .str e)]) = none := by
  refine ⟨?_, rfl, rfl⟩
  simp [extractContent, jGet, jIndex, jStr]

/-- C4: on a summary record with results_ttft_s_mean = 1.30128, the printed
time-to-first-token line is exactly "Avg. First-Time-To-Token: 1301.28ms"
(seconds scaled to milliseconds, two-decimal rounding), and the inter-token
latency line uses the same scaling, rendering 0.01045 s as "10.45ms/token". -/
theorem summary_latency_formatting (d : SummaryRecord)
    (h1 : d.results_ttft_s_mean = 130128 / 100000)
    (h2 : d.results_inter_token_latency_s_mean = 1045 / 100000) :
    (summaryLines d).get? 3 = some "Avg. First-Time-To-Token: 1301.28ms" ∧
    (summaryLines d).get? 5 = some "Avg. Latency: 10.45ms/token" := by
  constructor
  · simp only [summaryLines, h1, fmtFixed2_ttft_eval, List.get?]
    rfl
  · simp only [summaryLines, h2, fmtFixed2_latency_eval, List.get?]
    rfl

/-- C4 witness: the record reproducing the committed notebook output renders
the two documented latency lines. -/
theorem summary_latency_formatting_witness :
    (summaryLines benchData).get? 3 = some "Avg. First-Time-To-Token: 1301.28ms" ∧
    (summaryLines benchData).get? 5 = some "Avg. Latency: 10.45ms/token" :=
  summary_latency_formatting benchData rfl rfl

/-- C6 counterexample: a primary failure that is not a ValueError (for
example an access-denied error) is not caught, so even with a fallback that
would succeed, the resolver does not return the fallback role's ARN — it
propagates the primary failure.  This refutes the claim that any primary
failure triggers the fallback. -/
theorem resolveRole_other_exc_no_fallback :
    resolveRole (.error (.other "AccessDeniedException"))
        (fun _ => .ok { arn := "arn:aws:iam::111122223333:role/sagemaker_execution_role" }) =
      .error (.other "AccessDeniedException") ∧
    ¬ (resolveRole (.error (.other "AccessDeniedException"))
        (fun _ => .ok { arn := "arn:aws:iam::111122223333:role/sagemaker_execution_role" }) =
      .ok "arn:aws:iam::111122223333:role/sagemaker_execution_role") :=
  ⟨rfl, by simp [resolveRole]⟩

/-- C6 amended: when the primary execution-role lookup fails with a
ValueError, the resolver falls back to the IAM lookup by the fixed role
name sagemaker_execution_role and returns that role's ARN; a failing
fallback propagates its error uncaught, and a primary failure of any other
exception type propagates directly without consulting the fallback. -/
theorem resolveRole_valueerror_fallback
    (m : String) (iam : String → Except PyExc IamRole) :
    (∀ r, iam "sagemaker_execution_role" = .ok r →
        resolveRole (.error (.valueError m)) iam = .ok r.arn) ∧
    (∀ e, iam "sagemaker_execution_role" = .error e →
        resolveRole (.error (.valueError m)) iam = .error e) ∧
    (∀ e, resolveRole (.error (.other e)) iam = .error (.other e)) := by
  refine ⟨?_, ?_, fun e => rfl⟩ <;> intro x hx <;> simp [resolveRole, hx]

/-- C6 witness: a ValueError in the primary lookup with a succeeding IAM
fallback yields the fallback role's ARN. -/
theorem resolveRole_valueerror_fallback_witness :
    resolveRole (.error (.valueError "could not determine role"))
        (fun _ => .ok { arn := "arn:aws:iam::111122223333:role/sagemaker_execution_role" }) =
      .ok "arn:aws:iam::111122223333:role/sagemaker_execution_role" :=
  (resolveRole_valueerror_fallback "could not determine role"
      (fun _ => .ok { arn := "arn:aws:iam::111122223333:role/sagemaker_execution_role" })).1
    { arn := "arn:aws:iam::111122223333:role/sagemaker_execution_role" } rfl

/-- C7: on any filesystem where no path matches results/*summary.json, the
summary cell fails with the IndexError before opening or printing anything;
when matches exist the cell takes the first one and prints its fields
(assumed present, never validated further). -/
theorem summaryCell_glob_behavior (fs : List (String × SummaryRecord)) :
    ((∀ p ∈ fs, matchesSummaryPattern p.1 = false) →
        summaryCell fs = .error "IndexError: list index out of range") ∧
    (∀ path data,
        (fs.filter (fun p => matchesSummaryPattern p.1)).head? = some (path, data) →
        summaryCell fs = .ok (summaryLines data)) := by
  constructor
  · intro h
    have hf : fs.filter (fun p => matchesSummaryPattern p.1) = [] := by
      rw [List.filter_eq_nil_iff]
      intro p hp
      simp [h p hp]
    simp [summaryCell, hf]
  · intro path data h
    simp [summaryCell, h]

/-- C7 witness: a filesystem holding only a non-matching file raises the
IndexError, and one holding a matching summary file prints its lines. -/
theorem summaryCell_glob_behavior_witness :
    summaryCell [("results/raw.json", benchData)] =
      .error "IndexError: list index out of range" ∧
    summaryCell [("results/2024_summary.json", benchData)] =
      .ok (summaryLines benchData) :=
  ⟨(summaryCell_glob_behavior [("results/raw.json", benchData)]).1
      (by
        intro p hp
        rw [List.mem_singleton] at hp
        subst hp
        rfl),
   (summaryCell_glob_behavior [("results/2024_summary.json", benchData)]).2
      "results/2024_summary.json" benchData rfl⟩

/-- C8: the outgoing predict payload is a single flat JSON object holding
the messages array (entries are role/content pairs with roles from the set
system, user, assistant) merged at top level with the model placeholder and
the generation parameters top_p, temperature, max_tokens and stop, and the
messages entry is the source message list verbatim. -/
theorem predictPayload_flat_merge :
    predictPayload messages parameters =
      .obj [("messages",
              .arr [.obj [("role", .str "system"),
                          ("content", .str "You are a helpful assistant.")],
                    .obj [("role", .str "user"),
                          ("content", .str "What is deep learning?")]]),
            ("model", .str "meta-llama/Meta-Llama-3-70B-Instruct"),
            ("top_p", .num (6 / 10)),
            ("temperature", .num (9 / 10)),
            ("max_tokens", .num 512),
            ("stop", .arr [.str "<|eot_id|>"])] ∧
    jGet (predictPayload messages parameters) "messages" =
      some (.arr (messages.map msgToJ)) ∧
    messages.all
      (fun m => m.role == "system" || m.role == "user" || m.role == "assistant") = true :=
  ⟨rfl, rfl, rfl⟩

/-- C10: the first printed summary line is the hard-coded constant
"Concurrent requests: 25" for every summary record: it reads nothing from
the record (the printing step's only input), so it cannot reflect the
benchmark command's concurrency flag either — the command string is built
by benchmarkCommand, from which no data flows into summaryLines. -/
theorem concurrent_line_hardcoded (d e : SummaryRecord) :
    (summaryLines d).head? = some "Concurrent requests: 25" ∧
    (summaryLines d).head? = (summaryLines e).head? :=
  ⟨rfl, rfl⟩

end DeployLlama3
